import Mathlib

/-!
Shallow embedding of the C10 decimal-time repository (crates `c10time`, the
older root `src` variant, and the `c10clock` binary), together with proofs
about the embedded operations.

Machine integers are modelled as `Nat`/`Int`; the `u64` overflow checks of
`Duration::new` are made explicit against `2 ^ 64`.  Code paths that abort
in Rust (overflow, out-of-bounds table access, assertions) are modelled by
`Option`, with `none` for the aborting path.  The two unbounded `while`
loops of the year resolvers are embedded with an explicit fuel parameter;
the wrappers supply fuel that is proved sufficient below.
-/

set_option maxRecDepth 4000

namespace C10

/-! Formula strategy: `c10time/src/epochs.rs`. -/

namespace Formula

/-- The `is_leap` macro of `c10time/src/epochs.rs`:
`year % 4 == 0 && (year % 100 != 0 || year % 400 == 0)`. -/
def is_leap (year : Nat) : Bool :=
  year % 4 == 0 && (year % 100 != 0 || year % 400 == 0)

/-- `year_to_days` of `c10time/src/epochs.rs`: starting from the target year
and walking down while `year > 1970`, add 365 days plus one more when
`is_leap` holds for the year being visited. -/
def year_to_days : Nat → Nat
  | 0 => 0
  | y + 1 =>
    if y + 1 > 1970 then 365 + (if is_leap (y + 1) then 1 else 0) + year_to_days y
    else 0

/-- `year_to_seconds` of `c10time/src/epochs.rs`. -/
def year_to_seconds (year : Nat) : Nat :=
  year_to_days year * (24 * 60 * 60)

/-- `year_to_ticks` of `c10time/src/epochs.rs`. -/
def year_to_ticks (year : Nat) : Nat :=
  year_to_days year * (100 * 100 * 100)

/-- The `while year_to_ticks(guess + 1) < ticks { guess += 1 }` loop of
`year_from_ticks`, with explicit fuel (one unit per iteration). -/
def year_from_ticks_go : Nat → Nat → Nat → Option Nat
  | 0, _, _ => none
  | fuel + 1, guess, ticks =>
    if year_to_ticks (guess + 1) < ticks then year_from_ticks_go fuel (guess + 1) ticks
    else some guess

/-- `year_from_ticks` of `c10time/src/epochs.rs`: linear search upward from a
guess of 1970.  Fuel `ticks + 1` is proved sufficient (`c10_search_terminates`). -/
def year_from_ticks (ticks : Nat) : Option Nat :=
  year_from_ticks_go (ticks + 1) 1970 ticks

end Formula

/-! Table strategy: the older root `src/epochs.rs`. -/

namespace Table

/-- `EPOCH_SECONDS` of `src/epochs.rs`: seconds elapsed since the Unix epoch
at the start of each year from 1970 through 2039 (70 entries). -/
def EPOCH_SECONDS : List Nat := [
  0, 31536000, 63072000, 94694400, 126230400, 157766400, 189302400, 220924800, 252460800,
  283996800, 315532800, 347155200, 378691200, 410227200, 441763200, 473385600, 504921600,
  536457600, 567993600, 599616000, 631152000, 662688000, 694224000, 725846400, 757382400,
  788918400, 820454400, 852076800, 883612800, 915148800, 946684800, 978307200, 1009843200,
  1041379200, 1072915200, 1104537600, 1136073600, 1167609600, 1199145600, 1230768000, 1262304000,
  1293840000, 1325376000, 1356998400, 1388534400, 1420070400, 1451606400, 1483228800, 1514764800,
  1546300800, 1577836800, 1609459200, 1640995200, 1672531200, 1704067200, 1735689600, 1767225600,
  1798761600, 1830297600, 1861920000, 1893456000, 1924992000, 1956528000, 1988150400, 2019686400,
  2051222400, 2082758400, 2114380800, 2145916800, 2177452800
]

/-- `year_to_seconds` of `src/epochs.rs`: `EPOCH_SECONDS[year - 1970]` guarded
by `assert!(index < EPOCH_SECONDS.len())`; `none` models the aborting paths
(the assertion failure, and the `usize` underflow for years before 1970). -/
def year_to_seconds (year : Nat) : Option Nat :=
  if year < 1970 then none else EPOCH_SECONDS.get? (year - 1970)

/-- `year_to_ticks` of `src/epochs.rs`: `year_to_seconds(year) * 1_000_000 / 86_400`. -/
def year_to_ticks (year : Nat) : Option Nat :=
  (year_to_seconds year).map (fun s => s * 1000000 / 86400)

/-- The search loop of `year_from_secs` in `src/epochs.rs`, with explicit fuel
(one unit per iteration).  Each iteration reads `EPOCH_SECONDS[index + 1]`
(`none` models the out-of-bounds abort), advances while the entry is below
`secs`, and aborts when the incremented index reaches the table length. -/
def year_from_secs_go : Nat → Nat → Nat → Option Nat
  | 0, _, _ => none
  | fuel + 1, index, secs =>
    match EPOCH_SECONDS.get? (index + 1) with
    | none => none
    | some v =>
      if v < secs then
        if index + 1 ≥ EPOCH_SECONDS.length then none
        else year_from_secs_go fuel (index + 1) secs
      else some (index + 1970)

/-- `year_from_secs` of `src/epochs.rs`: the search starts from the estimate
`secs >> 25`.  Fuel equal to the table length is sufficient: the index grows
by one per iteration and every iteration requires `index + 1` in bounds. -/
def year_from_secs (secs : Nat) : Option Nat :=
  year_from_secs_go EPOCH_SECONDS.length (secs >>> 25) secs

end Table

/-! Tick arithmetic: `Duration` in `c10time/src/lib.rs`. -/

/-- One past the largest `u64` value; the bound of the overflow checks in
`Duration::new`. -/
def U64_SIZE : Nat := 2 ^ 64

/-- `u64::checked_mul`: `none` on overflow. -/
def checked_mul (a b : Nat) : Option Nat :=
  if a * b < U64_SIZE then some (a * b) else none

/-- `u64::checked_add`: `none` on overflow. -/
def checked_add (a b : Nat) : Option Nat :=
  if a + b < U64_SIZE then some (a + b) else none

/-- The `Duration` struct of `c10time/src/lib.rs`: a count of ticks. -/
structure Duration where
  ticks : Nat
deriving DecidableEq, Repr

/-- `Duration::new(intervals, centivals, ticks)` of `c10time/src/lib.rs`:
`intervals * (100*100)` checked, added (checked) to `ticks`, then
`centivals * 100` checked, added (checked) to that sum.  `none` models the
overflow aborts. -/
def Duration.new (intervals centivals ticks : Nat) : Option Duration :=
  match checked_mul intervals (100 * 100) with
  | none => none
  | some iticks =>
    match checked_add ticks iticks with
    | none => none
    | some ticks2 =>
      match checked_mul centivals 100 with
      | none => none
      | some cticks =>
        match checked_add ticks2 cticks with
        | none => none
        | some ticks3 => some ⟨ticks3⟩

/-- `Duration::time_components` of `c10time/src/lib.rs`: returns
`(intervals, centivals, ticks)` extracted by division and modulo. -/
def Duration.time_components (d : Duration) : Nat × Nat × Nat :=
  (d.ticks / (100 * 100) % 100, d.ticks / 100 % 100, d.ticks % 100)

/-! Wall-clock sampling: `SystemTime::now` in `c10time/src/lib.rs` and the
older variant in the root `src/lib.rs`.  The reading of the platform clock
is the external input `(secs, nsecs)`; the embedded functions are the
conversions applied to it. -/

/-- The seconds/nanoseconds-to-ticks conversion of `SystemTime::now` in
`c10time/src/lib.rs`: `secs * 625 / 54 + nsecs * 625 / 54_000_000_000`. -/
def now_ticks (secs nsecs : Nat) : Nat :=
  secs * 625 / 54 + nsecs * 625 / 54000000000

/-- The seconds/nanoseconds-to-ticks conversion of `SystemTime::now` in the
older root `src/lib.rs`: `secs * 100 * 100 + nsecs * 86_400 / 1_000_000`. -/
def now_ticks_v0 (secs nsecs : Nat) : Nat :=
  secs * 100 * 100 + nsecs * 86400 / 1000000

/-- `SystemTime::time_components` (identical in both variants): the intraday
`(intervals, centivals, ticks)` of a timestamp's tick count. -/
def time_components (ticks : Nat) : Nat × Nat × Nat :=
  (ticks / (100 * 100) % 100, ticks / 100 % 100, ticks % 100)

/-- Zero-padding to two digits, as the `{:02}` format specifier renders the
intraday components. -/
def pad2 (n : Nat) : String :=
  if n < 10 then "0" ++ toString n else toString n

/-- The intraday part of the `Display` output: `HH:CC:TT`. -/
def fmt_time (c : Nat × Nat × Nat) : String :=
  pad2 c.1 ++ ":" ++ pad2 c.2.1 ++ ":" ++ pad2 c.2.2

/-! Drift-compensated scheduler: `UI::sleep` in `c10clock/src/main.rs`. -/

namespace Clock

/-- `GOAL` of `UI::sleep` in nanoseconds: `Duration::from_micros(24*60*60)`,
one C10 tick. -/
def GOAL_NS : Int := 86400000

/-- The scheduler state of the `UI` struct: the four-slot ring of drift
samples and the ring index. -/
structure UIState where
  drifts_ns : List Int
  drifts_idx : Nat
deriving DecidableEq, Repr

/-- The initial `UI` state: `Default::default()` zero-fills the ring and the
index. -/
def initUI : UIState := ⟨[0, 0, 0, 0], 0⟩

/-- One `UI::sleep` cycle given the measured elapsed nanoseconds: computes
`drift = elapsed - GOAL`, overwrites the ring slot at the current index,
advances the index modulo the ring length, averages the ring with `i64`
(truncating) division, and computes the sleep `GOAL - avg_drift`.  Returns
the new state and `(drift, avg_drift, computed_sleep)`. -/
def sleepStep (s : UIState) (elapsed_ns : Int) : UIState × Int × Int × Int :=
  let drift := elapsed_ns - GOAL_NS
  let drifts := s.drifts_ns.set s.drifts_idx drift
  let idx := (s.drifts_idx + 1) % drifts.length
  let avg := Int.tdiv drifts.sum (drifts.length : Int)
  (⟨drifts, idx⟩, drift, avg, GOAL_NS - avg)

/-- Iterates `sleepStep` over a list of elapsed measurements, collecting the
`(drift, avg_drift, computed_sleep)` triple of every cycle. -/
def runSteps : UIState → List Int → UIState × List (Int × Int × Int)
  | s, [] => (s, [])
  | s, e :: es =>
    let step := sleepStep s e
    let rest := runSteps step.1 es
    (rest.1, step.2 :: rest.2)

end Clock

/-! Helper lemmas about the formula strategy. -/

namespace Formula

/-- Unfolding equation for `year_to_days` above 1970. -/
theorem year_to_days_succ (y : Nat) (h : 1970 ≤ y) :
    year_to_days (y + 1) = 365 + (if is_leap (y + 1) then 1 else 0) + year_to_days y := by
  rw [year_to_days, if_pos (by omega)]

/-- Years up to 1970 accumulate no days. -/
theorem year_to_days_zero_of_le (y : Nat) (h : y ≤ 1970) : year_to_days y = 0 := by
  cases y with
  | zero => rfl
  | succ n => rw [year_to_days, if_neg (by omega)]

/-- One step of `year_to_days` never decreases. -/
theorem year_to_days_le_succ (n : Nat) : year_to_days n ≤ year_to_days (n + 1) := by
  by_cases h : 1970 ≤ n
  · rw [year_to_days_succ n h]
    omega
  · rw [year_to_days_zero_of_le n (by omega), year_to_days_zero_of_le (n + 1) (by omega)]

/-- `year_to_days` is monotone. -/
theorem year_to_days_mono {a b : Nat} (h : a ≤ b) : year_to_days a ≤ year_to_days b := by
  induction b with
  | zero =>
    have ha : a = 0 := by omega
    subst ha
    exact Nat.le_refl _
  | succ n ih =>
    rcases Nat.eq_or_lt_of_le h with rfl | hlt
    · exact Nat.le_refl _
    · exact Nat.le_trans (ih (by omega)) (year_to_days_le_succ n)

/-- Above 1970 every step of `year_to_days` adds at least 365. -/
theorem year_to_days_succ_ge (y : Nat) (h : 1970 ≤ y) :
    year_to_days y + 365 ≤ year_to_days (y + 1) := by
  rw [year_to_days_succ y h]
  omega

/-- Lower bound: `k` years past 1970 accumulate at least `365 * k` days. -/
theorem year_to_days_lower (k : Nat) : 365 * k ≤ year_to_days (1970 + k) := by
  induction k with
  | zero => exact Nat.zero_le _
  | succ n ih =>
    have hstep := year_to_days_succ_ge (1970 + n) (by omega)
    have harg : 1970 + (n + 1) = 1970 + n + 1 := by omega
    rw [harg]
    omega

/-- `year_to_ticks` is monotone. -/
theorem year_to_ticks_mono {a b : Nat} (h : a ≤ b) : year_to_ticks a ≤ year_to_ticks b :=
  Nat.mul_le_mul_right _ (year_to_days_mono h)

/-- Above 1970 every step of `year_to_ticks` adds at least 365,000,000. -/
theorem year_to_ticks_succ_ge (y : Nat) (h : 1970 ≤ y) :
    year_to_ticks y + 365000000 ≤ year_to_ticks (y + 1) := by
  have hd := year_to_days_succ_ge y h
  unfold year_to_ticks
  calc year_to_days y * (100 * 100 * 100) + 365000000
      = (year_to_days y + 365) * (100 * 100 * 100) := by ring
    _ ≤ year_to_days (y + 1) * (100 * 100 * 100) := Nat.mul_le_mul_right _ hd

/-- The tick count at a year dominates the day count at that year. -/
theorem year_to_days_le_ticks (y : Nat) : year_to_days y ≤ year_to_ticks y :=
  Nat.le_mul_of_pos_right _ (by norm_num)

/-- Characterization of the `year_from_ticks` search loop: with enough fuel it
stops exactly at the first guess `G` whose successor year starts at or after
the input. -/
theorem year_from_ticks_go_spec :
    ∀ fuel guess G ticks : Nat, guess ≤ G → G - guess < fuel →
      (∀ g, guess ≤ g → g < G → year_to_ticks (g + 1) < ticks) →
      ¬ year_to_ticks (G + 1) < ticks →
      year_from_ticks_go fuel guess ticks = some G := by
  intro fuel
  induction fuel with
  | zero =>
    intro guess G ticks h1 h2 _ _
    omega
  | succ f ih =>
    intro guess G ticks h1 h2 h3 h4
    rw [year_from_ticks_go]
    rcases Nat.eq_or_lt_of_le h1 with rfl | hlt
    · rw [if_neg h4]
    · rw [if_pos (h3 guess (Nat.le_refl _) hlt)]
      exact ih (guess + 1) G ticks hlt (by omega) (fun g hg hg2 => h3 g (by omega) hg2) h4

/-- The `year_from_ticks` search loop succeeds whenever the fuel reaches a
year whose start is at or past the input. -/
theorem year_from_ticks_go_total :
    ∀ fuel guess ticks : Nat, 1 ≤ fuel → ticks ≤ year_to_ticks (guess + fuel) →
      ∃ y, year_from_ticks_go fuel guess ticks = some y := by
  intro fuel
  induction fuel with
  | zero =>
    intro _ _ h _
    omega
  | succ f ih =>
    intro guess ticks _ h
    rw [year_from_ticks_go]
    by_cases hc : year_to_ticks (guess + 1) < ticks
    · rw [if_pos hc]
      cases f with
      | zero =>
        exfalso
        have h' : ticks ≤ year_to_ticks (guess + 1) := by simpa using h
        omega
      | succ f2 =>
        refine ih (guess + 1) ticks (by omega) ?_
        have harg : guess + 1 + (f2 + 1) = guess + (f2 + 1 + 1) := by omega
        rw [harg]
        exact h
    · exact ⟨guess, by rw [if_neg hc]⟩

end Formula

/-! Helper lemmas about the table strategy. -/

namespace Table

/-- When every table entry is below the input, the `year_from_secs` search
never produces a year: it aborts out of range. -/
theorem year_from_secs_go_none (secs : Nat) (hall : ∀ v ∈ EPOCH_SECONDS, v < secs) :
    ∀ fuel index : Nat, year_from_secs_go fuel index secs = none := by
  intro fuel
  induction fuel with
  | zero => intro _; rfl
  | succ f ih =>
    intro index
    rw [year_from_secs_go]
    split
    · rfl
    · next v hget =>
      rw [if_pos (hall v (List.get?_mem hget))]
      by_cases hb : index + 1 ≥ EPOCH_SECONDS.length
      · rw [if_pos hb]
      · rw [if_neg hb]
        exact ih (index + 1)

end Table

/-! Scheduler helper lemmas. -/

/-- Overwriting any slot of the zero ring with zero leaves the zero ring. -/
theorem set_zero_ring (i : Nat) : ([0, 0, 0, 0] : List Int).set i 0 = [0, 0, 0, 0] := by
  rcases i with _ | _ | _ | _ | n <;> rfl

/-- A `sleepStep` cycle on an all-zero ring with an exactly nominal elapsed
measurement pushes a zero drift, keeps the ring zero, reports zero average
drift and computes a sleep equal to the nominal period. -/
theorem sleepStep_zero_ring (idx : Nat) :
    Clock.sleepStep ⟨[0, 0, 0, 0], idx⟩ Clock.GOAL_NS =
      (⟨[0, 0, 0, 0], (idx + 1) % 4⟩, 0, 0, Clock.GOAL_NS) := by
  simp only [Clock.sleepStep, Int.sub_self, set_zero_ring]
  rfl

/-- Running the scheduler from an all-zero ring on exactly nominal elapsed
measurements yields zero drift, zero average drift and nominal sleep on
every cycle. -/
theorem runSteps_zero_ring (es : List Int) :
    ∀ idx : Nat, (∀ e ∈ es, e = Clock.GOAL_NS) →
      ∀ p ∈ (Clock.runSteps ⟨[0, 0, 0, 0], idx⟩ es).2, p = (0, 0, Clock.GOAL_NS) := by
  induction es with
  | nil =>
    intro idx _ p hp
    simp [Clock.runSteps] at hp
  | cons e es ih =>
    intro idx hall p hp
    have he : e = Clock.GOAL_NS := hall e (List.mem_cons_self _ _)
    subst he
    simp only [Clock.runSteps, sleepStep_zero_ring idx] at hp
    rcases List.mem_cons.mp hp with rfl | hmem
    · rfl
    · exact ih ((idx + 1) % 4) (fun x hx => hall x (List.mem_cons_of_mem _ hx)) p hmem

/-! Claim theorems. -/

/-- C1: the claim says the year resolvers map an exact year-start input back
to that year.  The code disagrees: the search loops use strict comparison,
so the exact start of 1971 (365,000,000 ticks, or 31,536,000 seconds)
resolves to 1970 in both strategies. -/
theorem c1_boundary_eval :
    Formula.year_to_ticks 1971 = 365000000 ∧
    Formula.year_from_ticks 365000000 = some 1970 ∧
    Table.year_to_seconds 1971 = some 31536000 ∧
    Table.year_from_secs 31536000 = some 1970 := by decide

/-- C2: every input past the last supported table entry (the start of 2039,
2,177,452,800 seconds) makes the table resolver fail instead of returning a
year. -/
theorem c2_table_out_of_range (secs : Nat) (h : 2177452800 < secs) :
    Table.year_from_secs secs = none := by
  have hall : ∀ v ∈ Table.EPOCH_SECONDS, v < secs := by
    have hle : ∀ v ∈ Table.EPOCH_SECONDS, v ≤ 2177452800 := by decide
    intro v hv
    exact Nat.lt_of_le_of_lt (hle v hv) h
  exact Table.year_from_secs_go_none secs hall _ _

/-- Witness for C2 at one second past the last table entry. -/
theorem c2_table_out_of_range_witness :
    2177452800 < 2177452801 ∧ Table.year_from_secs 2177452801 = none :=
  ⟨by decide, c2_table_out_of_range 2177452801 (by decide)⟩

/-- C3: whenever the packed tick total of `(intervals, centivals, ticks)`
fits in a `u64`, `Duration::new` succeeds with exactly that tick total, and
`time_components` decomposes it into components each in `[0, 100)` whose
recombination equals the tick total modulo 1,000,000. -/
theorem c3_duration_roundtrip (i c t : Nat) (h : i * 10000 + c * 100 + t < U64_SIZE) :
    ∃ d : Duration, Duration.new i c t = some d ∧
      d.ticks = i * 10000 + c * 100 + t ∧
      d.time_components.1 < 100 ∧
      d.time_components.2.1 < 100 ∧
      d.time_components.2.2 < 100 ∧
      d.time_components.1 * 10000 + d.time_components.2.1 * 100 + d.time_components.2.2 =
        (i * 10000 + c * 100 + t) % 1000000 := by
  have hU : U64_SIZE = 18446744073709551616 := by norm_num [U64_SIZE]
  rw [hU] at h
  have h1 : (100 * 100 : Nat) = 10000 := by norm_num
  have e1 : checked_mul i (100 * 100) = some (i * (100 * 100)) := by
    unfold checked_mul
    rw [if_pos (by rw [hU, h1]; omega)]
  have e2 : checked_add t (i * (100 * 100)) = some (t + i * (100 * 100)) := by
    unfold checked_add
    rw [if_pos (by rw [hU, h1]; omega)]
  have e3 : checked_mul c 100 = some (c * 100) := by
    unfold checked_mul
    rw [if_pos (by rw [hU]; omega)]
  have e4 : checked_add (t + i * (100 * 100)) (c * 100) = some (t + i * (100 * 100) + c * 100) := by
    unfold checked_add
    rw [if_pos (by rw [hU, h1]; omega)]
  refine ⟨⟨t + i * (100 * 100) + c * 100⟩, ?_, by dsimp only; rw [h1]; omega, ?_, ?_, ?_, ?_⟩
  · simp only [Duration.new, e1, e2, e3, e4]
  · simp only [Duration.time_components]
    omega
  · simp only [Duration.time_components]
    omega
  · simp only [Duration.time_components]
    omega
  · simp only [Duration.time_components]
    rw [h1]
    omega

/-- Witness for C3 at the spec's example `(0, 0, 150)`. -/
theorem c3_duration_roundtrip_witness :
    0 * 10000 + 0 * 100 + 150 < U64_SIZE ∧
    ∃ d : Duration, Duration.new 0 0 150 = some d ∧
      d.ticks = 0 * 10000 + 0 * 100 + 150 ∧
      d.time_components.1 < 100 ∧
      d.time_components.2.1 < 100 ∧
      d.time_components.2.2 < 100 ∧
      d.time_components.1 * 10000 + d.time_components.2.1 * 100 + d.time_components.2.2 =
        (0 * 10000 + 0 * 100 + 150) % 1000000 :=
  ⟨by decide, c3_duration_roundtrip 0 0 150 (by decide)⟩

/-- C4: in both strategies `year_to_ticks` is strictly increasing over the
supported years and maps 1970 to 0.  The formula strategy is unbounded; the
table strategy supports 1970 through 2039 (indices 0 through 69). -/
theorem c4_year_to_ticks_mono_zero :
    (∀ Y : Nat, 1970 ≤ Y → Formula.year_to_ticks Y < Formula.year_to_ticks (Y + 1)) ∧
    Formula.year_to_ticks 1970 = 0 ∧
    (∀ k : Nat, k < 69 →
      (Table.year_to_ticks (1970 + k)).isSome = true ∧
      (Table.year_to_ticks (1970 + k)).getD 0 < (Table.year_to_ticks (1970 + (k + 1))).getD 0) ∧
    Table.year_to_ticks 1970 = some 0 := by
  refine ⟨?_, by decide, by decide, by decide⟩
  intro Y hY
  have := Formula.year_to_ticks_succ_ge Y hY
  omega

/-- Witness for C4 at the first supported year of each strategy. -/
theorem c4_year_to_ticks_mono_zero_witness :
    Formula.year_to_ticks 1970 < Formula.year_to_ticks (1970 + 1) ∧
    ((Table.year_to_ticks (1970 + 0)).isSome = true ∧
      (Table.year_to_ticks (1970 + 0)).getD 0 < (Table.year_to_ticks (1970 + (0 + 1))).getD 0) :=
  ⟨c4_year_to_ticks_mono_zero.1 1970 (by decide), c4_year_to_ticks_mono_zero.2.2.1 0 (by decide)⟩

/-- C5: a wall-clock sample of exactly 86,400 seconds and 0 nanoseconds (one
day after the Unix epoch) converts to a tick count that is a whole day, so
its intraday components are `(0, 0, 0)` and the intraday display is
`00:00:00` — in the `625 / 54` conversion of `c10time` and in the older
root-variant conversion alike. -/
theorem c5_one_day_sample :
    now_ticks 86400 0 = 1000000 ∧
    now_ticks 86400 0 % 1000000 = 0 ∧
    time_components (now_ticks 86400 0) = (0, 0, 0) ∧
    fmt_time (time_components (now_ticks 86400 0)) = "00:00:00" ∧
    now_ticks_v0 86400 0 % 1000000 = 0 ∧
    time_components (now_ticks_v0 86400 0) = (0, 0, 0) ∧
    fmt_time (time_components (now_ticks_v0 86400 0)) = "00:00:00" := by decide

/-- C6: for every year after 1970, one tick below the year-start boundary
resolves to the previous year in the formula strategy. -/
theorem c6_lower_boundary (Y : Nat) (h : 1971 ≤ Y) :
    Formula.year_from_ticks (Formula.year_to_ticks Y - 1) = some (Y - 1) := by
  unfold Formula.year_from_ticks
  have hdays := Formula.year_to_days_lower (Y - 1970)
  rw [show 1970 + (Y - 1970) = Y from by omega] at hdays
  have hdt := Formula.year_to_days_le_ticks Y
  have hstep : Formula.year_to_ticks (Y - 1) + 365000000 ≤ Formula.year_to_ticks (Y - 1 + 1) :=
    Formula.year_to_ticks_succ_ge (Y - 1) (by omega)
  rw [show Y - 1 + 1 = Y from by omega] at hstep
  apply Formula.year_from_ticks_go_spec
  · omega
  · omega
  · intro g hg1 hg2
    have hmono : Formula.year_to_ticks (g + 1) ≤ Formula.year_to_ticks (Y - 1) :=
      Formula.year_to_ticks_mono (by omega)
    omega
  · rw [show Y - 1 + 1 = Y from by omega]
    omega

/-- Witness for C6 at the first year after 1970. -/
theorem c6_lower_boundary_witness :
    1971 ≤ 1971 ∧
    Formula.year_from_ticks (Formula.year_to_ticks 1971 - 1) = some (1971 - 1) :=
  ⟨by decide, c6_lower_boundary 1971 (by decide)⟩

/-- C7: both strategies place the start of 2023 at exactly 1,672,531,200
seconds after the Unix epoch. -/
theorem c7_reference_2023 :
    Formula.year_to_seconds 2023 = 1672531200 ∧
    Table.year_to_seconds 2023 = some 1672531200 := by decide

/-- C8: the claim says the two strategies agree on 1970 through 2039.  They
do not: at the leap year 1972 the formula strategy counts the target year's
own leap day (731 days), while the GNU-date-derived table gives 730 days, so
the two `year_to_ticks` differ by a full day of ticks. -/
theorem c8_leap_divergence :
    Formula.year_to_days 1972 = 731 ∧
    Formula.year_to_ticks 1972 = 731000000 ∧
    Table.year_to_ticks 1972 = some 730000000 := by decide

/-- C9: if every measured elapsed duration equals the nominal period, every
drift sample pushed into the ring is zero, the average drift is zero on
every cycle, and every computed sleep equals the nominal period. -/
theorem c9_zero_drift (es : List Int) (h : ∀ e ∈ es, e = Clock.GOAL_NS) :
    ∀ p ∈ (Clock.runSteps Clock.initUI es).2, p = (0, 0, Clock.GOAL_NS) :=
  runSteps_zero_ring es 0 h

/-- Witness for C9 on five exactly nominal cycles (enough to wrap the
four-slot ring). -/
theorem c9_zero_drift_witness :
    (∀ e ∈ [Clock.GOAL_NS, Clock.GOAL_NS, Clock.GOAL_NS, Clock.GOAL_NS, Clock.GOAL_NS],
      e = Clock.GOAL_NS) ∧
    ∀ p ∈ (Clock.runSteps Clock.initUI
      [Clock.GOAL_NS, Clock.GOAL_NS, Clock.GOAL_NS, Clock.GOAL_NS, Clock.GOAL_NS]).2,
      p = (0, 0, Clock.GOAL_NS) :=
  ⟨by decide, c9_zero_drift _ (by decide)⟩

/-- C10: the `year_from_ticks` search loop terminates on every input: since
`year_to_ticks` grows without bound in the guessed year, fuel `ticks + 1` is
always enough for the loop to stop and return a year. -/
theorem c10_search_terminates (ticks : Nat) :
    ∃ y, Formula.year_from_ticks ticks = some y := by
  unfold Formula.year_from_ticks
  apply Formula.year_from_ticks_go_total _ _ _ (by omega)
  have hdays := Formula.year_to_days_lower (ticks + 1)
  have hdt := Formula.year_to_days_le_ticks (1970 + (ticks + 1))
  omega

end C10
